import Mathlib

/-!
Verification of the AudioWhisper ML daemon core (`Sources/ml/`): the JSON-RPC
dispatcher (`rpc.py`), the model cache and offline-environment guard
(`loader.py`), the correction operation and its cleanup pipeline
(`correction.py`), and the transcription result extraction (`parakeet.py`).

The Python code is shallowly embedded: JSON values and duck-typed Python
values become inductive types, `os.environ` becomes a function
`String → Option String`, the process-wide `MODEL_CACHE` dict becomes an
association list threaded through every operation, and every external
library call (model loading, generation, chat templating, the file system)
becomes an oracle field of an `Oracles` structure, so that theorems quantify
over every possible behaviour of the external libraries.  A Python function
that can raise is embedded as a function returning `Except String`
(the `String` being `str(exc)`); state mutations performed before a raise
persist, so stateful functions return `Except String β × MLState α`.
-/

namespace AudioWhisper

/-- Python/JSON values as produced by `json.loads`. -/
inductive Json where
  | null : Json
  | bool : Bool → Json
  | num : Int → Json
  | str : String → Json
  | arr : List Json → Json
  | obj : List (String × Json) → Json

mutual

/-- Structural equality on embedded JSON values (Python `==`). -/
def jsonBeq : Json → Json → Bool
  | .null, .null => true
  | .bool a, .bool b => a == b
  | .num a, .num b => a == b
  | .str a, .str b => a == b
  | .arr xs, .arr ys => jsonBeqList xs ys
  | .obj xs, .obj ys => jsonBeqFields xs ys
  | _, _ => false

def jsonBeqList : List Json → List Json → Bool
  | [], [] => true
  | x :: xs, y :: ys => jsonBeq x y && jsonBeqList xs ys
  | _, _ => false

def jsonBeqFields : List (String × Json) → List (String × Json) → Bool
  | [], [] => true
  | (k, x) :: xs, (l, y) :: ys => k == l && jsonBeq x y && jsonBeqFields xs ys
  | _, _ => false

end

/-- Python truthiness of a JSON value (`bool(x)`). -/
def pyTruthy : Json → Bool
  | .null => false
  | .bool b => b
  | .num n => n != 0
  | .str s => s ≠ ""
  | .arr xs => !xs.isEmpty
  | .obj fs => !fs.isEmpty

/-- Python `str()` of a JSON value, as used by f-string interpolation.
`str` values are rendered verbatim; compound values only occur in
degenerate requests and are rendered best effort. -/
def jsonPyStr : Json → String
  | .null => "None"
  | .bool b => if b then "True" else "False"
  | .num n => toString n
  | .str s => s
  | .arr _ => "[...]"
  | .obj _ => "\x7b...\x7d"

/-- The Python type name of a JSON value, for `AttributeError` messages. -/
def jsonTypeName : Json → String
  | .null => "NoneType"
  | .bool _ => "bool"
  | .num _ => "int"
  | .str _ => "str"
  | .arr _ => "list"
  | .obj _ => "dict"

/-- Embeds `request.get(key)`: on a dict, the value under `key`
(Python `None`, i.e. `Json.null`, when absent); on any non-dict value it
raises `AttributeError` — this models that `json.loads` may return a
non-object on which `.get` does not exist. -/
def jsonGet (j : Json) (key : String) : Except String Json :=
  match j with
  | .obj fields =>
      .ok ((fields.lookup key).getD Json.null)
  | other =>
      .error (jsonTypeName other ++ " object has no attribute get")

/-- Embeds `os.environ`, restricted to lookup/set/delete: a present key maps to
`some value`. -/
abbrev PyEnv : Type := String → Option String

/-- Python `os.environ[k] = v`. -/
def envSet (e : PyEnv) (k v : String) : PyEnv :=
  fun k' => if k' = k then some v else e k'

/-- Python `os.environ.pop(k, None)`. -/
def envPop (e : PyEnv) (k : String) : PyEnv :=
  fun k' => if k' = k then none else e k'

/-- A `MODEL_CACHE` entry: the parakeet loader stores the bare model
handle, the mlx loader stores the `(model, tokenizer)` pair. -/
inductive CacheVal (α : Type) where
  | single : α → CacheVal α
  | pair : α → α → CacheVal α

/-- Cache keys are `(kind, repo)` pairs; `repo` is whatever JSON value the
request supplied (a string in practice). -/
def keyBeq (a b : String × Json) : Bool :=
  a.1 == b.1 && jsonBeq a.2 b.2

abbrev Cache (α : Type) : Type := List ((String × Json) × CacheVal α)

def cacheLookup (k : String × Json) : Cache α → Option (CacheVal α)
  | [] => none
  | (k', v) :: rest => if keyBeq k k' then some v else cacheLookup k rest

/-- Python `MODEL_CACHE[key] = value` (insert or overwrite). -/
def cacheInsert (k : String × Json) (v : CacheVal α) : Cache α → Cache α
  | [] => [(k, v)]
  | (k', v') :: rest =>
      if keyBeq k k' then (k, v) :: rest else (k', v') :: cacheInsert k v rest

/-- Ghost instrumentation: one event per underlying model-library load call
and one per generation attempt, recorded exactly where the source invokes
the library. -/
inductive LogEvent where
  | load : String → Json → LogEvent
  | gen : String → Nat → LogEvent

def LogEvent.isLoad : LogEvent → Bool
  | .load _ _ => true
  | .gen _ _ => false

def LogEvent.isGen : LogEvent → Bool
  | .load _ _ => false
  | .gen _ _ => true

/-- Process state threaded through the daemon: `MODEL_CACHE`, `os.environ`,
and the ghost call log. -/
structure MLState (α : Type) where
  cache : Cache α
  env : PyEnv
  log : List LogEvent

def HF_ENV_KEYS : List String := ["HF_HUB_OFFLINE", "TRANSFORMERS_OFFLINE"]

/-- Embeds `_set_offline_env`: capture the previous values of the two flags and
set both to `"1"`; returns the captured values keyed for `_restore_env`. -/
def set_offline_env (e : PyEnv) : List (String × Option String) × PyEnv :=
  (HF_ENV_KEYS.map (fun k => (k, e k)),
   envSet (envSet e "HF_HUB_OFFLINE" "1") "TRANSFORMERS_OFFLINE" "1")

/-- Embeds `_restore_env`: write back each captured value, deleting keys that were
absent. -/
def restore_env (previous : List (String × Option String)) (e : PyEnv) : PyEnv :=
  previous.foldl
    (fun acc kv =>
      match kv with
      | (k, none) => envPop acc k
      | (k, some v) => envSet acc k v)
    e

/-! ### Python string helpers (`str.strip`, `str.split`, regex cleanup) -/

/-- The characters Python `str.strip()` removes. -/
def pyIsSpace (c : Char) : Bool :=
  c == ' ' || c == '\t' || c == '\n' || c == '\r' ||
    c == Char.ofNat 11 || c == Char.ofNat 12

/-- Python `str.strip(chars)`: drop the characters satisfying `p` from both
ends (all of them, not one layer). -/
def stripChars (p : Char → Bool) (l : List Char) : List Char :=
  ((l.dropWhile p).reverse.dropWhile p).reverse

/-- Python `str.strip()` on strings. -/
def pyStrip (s : String) : String :=
  (stripChars pyIsSpace s.toList).asString

/-- Embeds `len(text.split())`: the number of maximal non-whitespace runs. -/
def pyCountWords (s : String) : Nat :=
  (s.toList.foldl
    (fun st c =>
      if pyIsSpace c then (st.1, false)
      else if st.2 then st else (st.1 + 1, true))
    ((0 : Nat), false)).1

/-- Split around the first occurrence of `pat`: `some (pre, post)` with the
input equal to `pre ++ pat ++ post` and no occurrence of `pat` inside `pre`;
`none` when `pat` does not occur (for non-empty `pat`). -/
def splitFirst (pat : List Char) : List Char → Option (List Char × List Char)
  | [] => none
  | c :: rest =>
    if pat.isPrefixOf (c :: rest) then some ([], (c :: rest).drop pat.length)
    else
      match splitFirst pat rest with
      | some (pre, post) => some (c :: pre, post)
      | none => none

def thinkOpenL : List Char := "<think>".toList

def thinkCloseL : List Char := "</think>".toList

/-- Embeds `re.sub(r"<think>.*?</think>", "", s, flags=re.DOTALL)`: repeatedly
delete the leftmost span from a `<think>` to the first following
`</think>` (the non-greedy whole-span match), continuing after the deleted
span.  Fuel-indexed so the definition is structural; `length + 1` fuel is
far more than the possible number of matches. -/
def stripThinkFuel : Nat → List Char → List Char
  | 0, l => l
  | fuel + 1, l =>
    match splitFirst thinkOpenL l with
    | none => l
    | some (pre, rest) =>
      match splitFirst thinkCloseL rest with
      | none => l
      | some (_, rest2) => pre ++ stripThinkFuel fuel rest2

def stripThink (l : List Char) : List Char :=
  stripThinkFuel (l.length + 1) l

/-- Embeds `re.sub(r"<think>.*", "", s, flags=re.DOTALL)`: truncate at the first
remaining `<think>`. -/
def stripThinkTail (l : List Char) : List Char :=
  match splitFirst thinkOpenL l with
  | none => l
  | some (pre, _) => pre

/-- Embeds the chain `.strip().strip('"').strip("'").strip()` from `correction.py`. -/
def quadStrip (l : List Char) : List Char :=
  stripChars pyIsSpace
    (stripChars (fun c => c == '\'')
      (stripChars (fun c => c == '"')
        (stripChars pyIsSpace l)))

/-- The whole post-generation cleanup of `correct`: complete
`<think>…</think>` removal, truncation at an unterminated `<think>`, then
the whitespace/quote trim chain. -/
def cleanupList (l : List Char) : List Char :=
  quadStrip (stripThinkTail (stripThink l))

def cleanupText (s : String) : String :=
  (cleanupList s.toList).asString

/-! ### Duck-typed Python values returned by `model.generate` -/

/-- The result values `extract_parakeet_text` inspects: `None`, numbers,
strings, lists, dicts, and arbitrary objects with named attributes. -/
inductive PyVal where
  | none_ : PyVal
  | int : Int → PyVal
  | str : String → PyVal
  | list : List PyVal → PyVal
  | dict : List (String × PyVal) → PyVal
  | object : List (String × PyVal) → PyVal

/-- Python truthiness (`bool(x)`); plain objects are truthy. -/
def pyTruthyV : PyVal → Bool
  | .none_ => false
  | .int n => n != 0
  | .str s => s ≠ ""
  | .list xs => !xs.isEmpty
  | .dict fs => !fs.isEmpty
  | .object _ => true

/-- Python `str(x)` restricted to the values exercised here; container and
object renderings are best effort. -/
def pyStrV : PyVal → String
  | .none_ => "None"
  | .int n => toString n
  | .str s => s
  | .list _ => "[...]"
  | .dict _ => "\x7b...\x7d"
  | .object _ => "<object>"

/-- Embeds `hasattr`/`getattr`: only `object` values carry attributes (lists,
dicts, strings and numbers have no `text`/`texts` attribute). -/
def getAttr (v : PyVal) (name : String) : Option PyVal :=
  match v with
  | .object attrs => attrs.lookup name
  | _ => none

/-- Embeds `x or ""`. -/
def orEmptyV (v : PyVal) : PyVal :=
  if pyTruthyV v then v else .str ""

/-- Embeds `x[0]`: first element of a sequence, `IndexError`/`TypeError`
otherwise. -/
def index0 : PyVal → Except String PyVal
  | .list (x :: _) => .ok x
  | .list [] => .error "list index out of range"
  | .str s =>
      match s.toList with
      | c :: _ => .ok (.str (String.mk [c]))
      | [] => .error "string index out of range"
  | .dict _ => .error "KeyError: 0"
  | other => .error ("\x27" ++ "...\x27 object is not subscriptable: " ++ pyStrV other)

def extractErrMsg (result : PyVal) : String :=
  "Cannot extract text from result: " ++ pyStrV result

/-- The dict arm of `extract_parakeet_text` (its last two `if`s plus the
final `raise`). -/
def extractFromDict (result : PyVal) : Except String PyVal :=
  match result with
  | .dict fields =>
      match fields.lookup "text" with
      | some t => .ok (orEmptyV t)
      | none =>
          match fields.lookup "texts" with
          | some ts =>
              if pyTruthyV ts then (index0 ts).map orEmptyV
              else .error (extractErrMsg result)
          | none => .error (extractErrMsg result)
  | _ => .error (extractErrMsg result)

/-- Embeds `extract_parakeet_text` from `parakeet.py`, shape checks in source
order: non-empty list (with a `str(first_item)` fallback when the first
item has no `text` attribute), then `text`/truthy-`texts` attributes, then
the dict keys, else `AttributeError`. -/
def extract_parakeet_text (result : PyVal) : Except String PyVal :=
  match result with
  | .list (first :: _) =>
      match getAttr first "text" with
      | some t => .ok (orEmptyV t)
      | none => .ok (.str (pyStrV first))
  | _ =>
      match getAttr result "text" with
      | some t => .ok (orEmptyV t)
      | none =>
          match getAttr result "texts" with
          | some ts =>
              if pyTruthyV ts then (index0 ts).map orEmptyV
              else extractFromDict result
          | none => extractFromDict result

/-! ### External-library oracles -/

/-- A Python exception from `mlx_lm.generate`: `_safe_generate` retries on
`TypeError` and lets every other exception propagate. -/
inductive PyExc where
  | typeErr : String → PyExc
  | exc : String → PyExc

def PyExc.msg : PyExc → String
  | .typeErr m => m
  | .exc m => m

/-- One chat message (`{"role": ..., "content": ...}`). -/
structure Message where
  role : String
  content : Json

/-- Every external call the daemon makes, as unconstrained oracles.
Loaders see the process environment that is in force when they run, so the
offline guard is observable to them. -/
structure Oracles (α : Type) where
  parakeetImportRes : Except String Unit
  fromPretrained : PyEnv → Json → Except String α
  mlxImportRes : Except String Unit
  mlxLoad : PyEnv → Json → Except String (α × α)
  pathExists : Json → Bool
  pathReadable : Json → Bool
  numpyImportRes : Except String Unit
  mlxCoreImportRes : Except String Unit
  audioImportRes : Except String Unit
  fromfileRes : Except String Unit
  logmelRes : Except String Unit
  parakeetGenerate : Except String PyVal
  applyChatDefault : List Message → Except String String
  applyChatNoThink : List Message → Except String String
  mlxGenImportRes : Except String Unit
  genFull : String → Nat → Except PyExc String
  genBasic : String → Nat → Except PyExc String

/-! ### `loader.py` -/

/-- Embeds `load_parakeet_model`: read-through cache under key
`("parakeet", repo)`; on a miss, import, load under the offline guard
(restoring the environment on both outcomes), and cache the handle only on
success. -/
def load_parakeet_model (o : Oracles α) (repo : Json) (s : MLState α) :
    Except String (CacheVal α) × MLState α :=
  let cache_key := ("parakeet", repo)
  match cacheLookup cache_key s.cache with
  | some v => (.ok v, s)
  | none =>
    match o.parakeetImportRes with
    | .error exc => (.error ("parakeet-mlx import failed: " ++ exc), s)
    | .ok _ =>
      let pe := set_offline_env s.env
      let s1 : MLState α :=
        { s with env := pe.2, log := s.log ++ [.load "parakeet" repo] }
      match o.fromPretrained pe.2 repo with
      | .error exc =>
          (.error ("Model not available offline: " ++ exc),
           { s1 with env := restore_env pe.1 s1.env })
      | .ok model =>
          let s2 := { s1 with env := restore_env pe.1 s1.env }
          (.ok (.single model),
           { s2 with cache := cacheInsert cache_key (.single model) s2.cache })

/-- Embeds `load_correction_model`: same read-through contract under key
`("mlx", repo)`, storing the `(model, tokenizer)` pair. -/
def load_correction_model (o : Oracles α) (repo : Json) (s : MLState α) :
    Except String (CacheVal α) × MLState α :=
  let cache_key := ("mlx", repo)
  match cacheLookup cache_key s.cache with
  | some v => (.ok v, s)
  | none =>
    match o.mlxImportRes with
    | .error exc => (.error ("mlx-lm import failed: " ++ exc), s)
    | .ok _ =>
      let pe := set_offline_env s.env
      let s1 : MLState α :=
        { s with env := pe.2, log := s.log ++ [.load "mlx" repo] }
      match o.mlxLoad pe.2 repo with
      | .error _ =>
          (.error "MLX model not available offline. Please open Settings to download it.",
           { s1 with env := restore_env pe.1 s1.env })
      | .ok mt =>
          let s2 := { s1 with env := restore_env pe.1 s1.env }
          (.ok (.pair mt.1 mt.2),
           { s2 with cache := cacheInsert cache_key (.pair mt.1 mt.2) s2.cache })

/-! ### `parakeet.py` -/

def DEFAULT_PARAKEET_REPO : String := "mlx-community/parakeet-tdt-0.6b-v3"

mutual

/-- Best-effort JSON view of the extracted text for the response payload
(in practice the extracted value is a string). -/
def pyValToJson : PyVal → Json
  | .none_ => Json.null
  | .int n => Json.num n
  | .str s => Json.str s
  | .list xs => Json.arr (pyValListToJson xs)
  | .dict fs => Json.obj (pyValFieldsToJson fs)
  | .object _ => Json.str "<object>"

def pyValListToJson : List PyVal → List Json
  | [] => []
  | x :: xs => pyValToJson x :: pyValListToJson xs

def pyValFieldsToJson : List (String × PyVal) → List (String × Json)
  | [] => []
  | (k, v) :: fs => (k, pyValToJson v) :: pyValFieldsToJson fs

end

/-- Embeds `transcribe`: precondition checks, imports, offline-guarded model
load, opaque audio pipeline, generation, and text extraction, each step
reported as an error rather than a crash. -/
def transcribe (o : Oracles α) (repo pcm_path : Json) (s : MLState α) :
    Except String Json × MLState α :=
  if !(o.pathExists pcm_path) then
    (.error ("PCM file not found: " ++ jsonPyStr pcm_path), s)
  else if !(o.pathReadable pcm_path) then
    (.error ("Cannot read PCM file: " ++ jsonPyStr pcm_path), s)
  else
    match o.numpyImportRes with
    | .error e => (.error ("numpy import failed: " ++ e), s)
    | .ok _ =>
    match o.mlxCoreImportRes with
    | .error e => (.error ("mlx.core import failed: " ++ e), s)
    | .ok _ =>
    match o.audioImportRes with
    | .error e => (.error ("parakeet_mlx.audio import failed: " ++ e), s)
    | .ok _ =>
    let lr := load_parakeet_model o repo s
    match lr.1 with
    | .error e => (.error e, lr.2)
    | .ok _ =>
    match o.fromfileRes with
    | .error e => (.error e, lr.2)
    | .ok _ =>
    match o.logmelRes with
    | .error e => (.error e, lr.2)
    | .ok _ =>
    match o.parakeetGenerate with
    | .error e => (.error e, lr.2)
    | .ok result =>
    match extract_parakeet_text result with
    | .error e => (.error e, lr.2)
    | .ok text =>
        (.ok (Json.obj [("success", Json.bool true), ("text", pyValToJson text)]), lr.2)

/-! ### `correction.py` -/

def DEFAULT_CORRECTION_PROMPT : String :=
  "Clean up this speech transcription: fix typos, grammar, punctuation, and remove " ++
  "filler words (um, uh, like, you know). Keep the original language. Output only " ++
  "the corrected text."

/-- Embeds `prompt.strip() if prompt and prompt.strip() else DEFAULT_CORRECTION_PROMPT`;
a truthy non-string prompt raises `AttributeError`. -/
def sysPromptOf : Json → Except String String
  | Json.str p =>
      .ok (if pyStrip p ≠ "" then pyStrip p else DEFAULT_CORRECTION_PROMPT)
  | other =>
      if pyTruthy other then
        .error ("\x27" ++ jsonTypeName other ++ "\x27 object has no attribute \x27strip\x27")
      else .ok DEFAULT_CORRECTION_PROMPT

/-- Embeds `_safe_chat_template`: any templating exception falls back to
`f"{system_prompt}\n\n{text}"`. -/
def safe_chat_template (o : Oracles α) (messages : List Message)
    (system_prompt : String) (text : Json) : String :=
  match o.applyChatDefault messages with
  | .ok r => r
  | .error _ => system_prompt ++ "\n\n" ++ jsonPyStr text

/-- Embeds `_safe_generate`: import, then generation with sampling parameters,
retrying once without them on `TypeError`; one ghost `gen` event per
attempt. -/
def safe_generate (o : Oracles α) (chat_prompt : String) (max_tokens : Nat)
    (s : MLState α) : Except String String × MLState α :=
  match o.mlxGenImportRes with
  | .error exc => (.error ("mlx-lm import failed: " ++ exc), s)
  | .ok _ =>
    let s1 : MLState α := { s with log := s.log ++ [.gen chat_prompt max_tokens] }
    match o.genFull chat_prompt max_tokens with
    | .ok g => (.ok g, s1)
    | .error (.typeErr _) =>
        match o.genBasic chat_prompt max_tokens with
        | .ok g => (.ok g, s1)
        | .error e => (.error e.msg, s1)
    | .error (.exc m) => (.error m, s1)

def correctionResult (t : String) : Json :=
  Json.obj [("success", Json.bool true), ("text", Json.str t)]

/-- Embeds the startswith-guarded echo removal (`generated[len(chat_prompt):]`),
on the character lists underlying both strings. -/
def dropEcho (chat_prompt generated : String) : String :=
  if chat_prompt.toList.isPrefixOf generated.toList then
    (generated.toList.drop chat_prompt.toList.length).asString
  else generated

/-- Embeds `correct`: cache-backed load, prompt construction, token budget
`max(128, min(4096, words*4))`, generation, cleanup, and the
empty-result retry with thinking disabled whose own failures are
swallowed. -/
def correct (o : Oracles α) (repo text prompt : Json) (s : MLState α) :
    Except String Json × MLState α :=
  let lr := load_correction_model o repo s
  match lr.1 with
  | .error e => (.error e, lr.2)
  | .ok (.single _) =>
      (.error "cannot unpack non-iterable model handle", lr.2)
  | .ok (.pair _ _) =>
    match sysPromptOf prompt with
    | .error e => (.error e, lr.2)
    | .ok system_prompt =>
      let messages : List Message :=
        [⟨"system", Json.str system_prompt⟩, ⟨"user", text⟩]
      let chat_prompt := safe_chat_template o messages system_prompt text
      match text with
      | Json.str t =>
        let max_tokens := max 128 (min 4096 (pyCountWords t * 4))
        let gr := safe_generate o chat_prompt max_tokens lr.2
        match gr.1 with
        | .error e => (.error e, gr.2)
        | .ok generated =>
          let cleaned := cleanupText (dropEcho chat_prompt generated)
          if cleaned = "" then
            match o.applyChatNoThink messages with
            | .error _ => (.ok (correctionResult cleaned), gr.2)
            | .ok p2 =>
              let gr2 := safe_generate o p2 max_tokens gr.2
              match gr2.1 with
              | .error _ => (.ok (correctionResult cleaned), gr2.2)
              | .ok g2 =>
                  (.ok (correctionResult (cleanupText (dropEcho p2 g2))), gr2.2)
          else (.ok (correctionResult cleaned), gr.2)
      | other =>
          (.error ("\x27" ++ jsonTypeName other ++ "\x27 object has no attribute \x27split\x27"), lr.2)

/-! ### `rpc.py` -/

def okResponse (req_id : Json) (result : Json) : Json :=
  Json.obj [("jsonrpc", Json.str "2.0"), ("id", req_id), ("result", result)]

def errResponse (req_id : Json) (msg : String) : Json :=
  Json.obj [("jsonrpc", Json.str "2.0"), ("id", req_id),
            ("error", Json.obj [("message", Json.str msg)])]

/-- The body of `_handle_request`'s `try` block.  In the source every
branch writes one response `{"jsonrpc","id",result}` and returns, and the
`except` arm writes the error envelope; equivalently the body computes the
`result` payload or the exception message and the wrapper attaches the
envelope. -/
def handleBody (o : Oracles α) (method params : Json) (s : MLState α) :
    Except String Json × MLState α :=
  if jsonBeq method (Json.str "ping") then
    (.ok (Json.obj [("pong", Json.bool true)]), s)
  else if jsonBeq method (Json.str "transcribe") then
    match jsonGet params "repo" with
    | .error e => (.error e, s)
    | .ok repo0 =>
      let repo := if pyTruthy repo0 then repo0 else Json.str DEFAULT_PARAKEET_REPO
      match jsonGet params "pcm_path" with
      | .error e => (.error e, s)
      | .ok pcm_path =>
        if !(pyTruthy pcm_path) then (.error "pcm_path is required for transcribe", s)
        else transcribe o repo pcm_path s
  else if jsonBeq method (Json.str "correct") then
    match jsonGet params "repo" with
    | .error e => (.error e, s)
    | .ok repo =>
    match jsonGet params "text" with
    | .error e => (.error e, s)
    | .ok text =>
    match jsonGet params "prompt" with
    | .error e => (.error e, s)
    | .ok prompt =>
      if !(pyTruthy repo) then (.error "repo is required for correct", s)
      else if jsonBeq text Json.null then (.error "text is required for correct", s)
      else correct o repo text prompt s
  else if jsonBeq method (Json.str "warmup") then
    match jsonGet params "type" with
    | .error e => (.error e, s)
    | .ok warm_type =>
    match jsonGet params "repo" with
    | .error e => (.error e, s)
    | .ok repo =>
      if !(pyTruthy warm_type) || !(pyTruthy repo) then
        (.error "warmup requires \x27type\x27 and \x27repo\x27", s)
      else if jsonBeq warm_type (Json.str "parakeet") then
        let lr := load_parakeet_model o repo s
        match lr.1 with
        | .error e => (.error e, lr.2)
        | .ok _ => (.ok (Json.obj [("success", Json.bool true)]), lr.2)
      else if jsonBeq warm_type (Json.str "mlx") || jsonBeq warm_type (Json.str "correction") then
        let lr := load_correction_model o repo s
        match lr.1 with
        | .error e => (.error e, lr.2)
        | .ok _ => (.ok (Json.obj [("success", Json.bool true)]), lr.2)
      else (.error ("Unknown warmup type: " ++ jsonPyStr warm_type), s)
  else (.error ("Unknown method: " ++ jsonPyStr method), s)

/-- Embeds `_handle_request`.  The three `.get` calls on the request happen
before the `try`, so on a non-dict request the `AttributeError` is
uncaught (`.error`); for dict requests every body outcome becomes exactly
one response. -/
def handle_request (o : Oracles α) (request : Json) (s : MLState α) :
    Except String (Json × MLState α) :=
  match jsonGet request "id" with
  | .error e => .error e
  | .ok req_id =>
  match jsonGet request "method" with
  | .error e => .error e
  | .ok _method =>
  match jsonGet request "params" with
  | .error e => .error e
  | .ok params0 =>
    let params := if pyTruthy params0 then params0 else Json.obj []
    match handleBody o _method params s with
    | (.ok result, s') => .ok (okResponse req_id result, s')
    | (.error msg, s') => .ok (errResponse req_id msg, s')

/-- The `main` read loop: skip blank lines, answer malformed JSON with an
`id: null` error response, otherwise handle the request; `.error` is an
uncaught exception escaping the loop, `.ok` is input exhaustion. -/
def mainLoop (o : Oracles α) (parse : String → Except String Json) :
    List String → MLState α → Except String (List Json × MLState α)
  | [], s => .ok ([], s)
  | line :: rest, s =>
    if pyStrip line = "" then mainLoop o parse rest s
    else
      match parse line with
      | .error msg =>
          (mainLoop o parse rest s).map
            (fun rs => (errResponse Json.null ("Invalid JSON: " ++ msg) :: rs.1, rs.2))
      | .ok request =>
          match handle_request o request s with
          | .error e => .error e
          | .ok (resp, s') =>
              (mainLoop o parse rest s').map (fun rs => (resp :: rs.1, rs.2))

/-- Embeds `main`, returning `0` on normal termination; a crash propagates. -/
def rpc_main (o : Oracles α) (parse : String → Except String Json)
    (lines : List String) (s : MLState α) :
    Except String (List Json × MLState α × Nat) :=
  match mainLoop o parse lines s with
  | .ok (rs, s') => .ok (rs, s', 0)
  | .error e => .error e

/-! ### Helper lemmas -/

mutual

theorem jsonBeq_refl : ∀ j, jsonBeq j j = true
  | .null => rfl
  | .bool b => by simp [jsonBeq]
  | .num n => by simp [jsonBeq]
  | .str s => by simp [jsonBeq]
  | .arr xs => by simpa [jsonBeq] using jsonBeqList_refl xs
  | .obj fs => by simpa [jsonBeq] using jsonBeqFields_refl fs

theorem jsonBeqList_refl : ∀ xs, jsonBeqList xs xs = true
  | [] => rfl
  | x :: xs => by simp [jsonBeqList, jsonBeq_refl x, jsonBeqList_refl xs]

theorem jsonBeqFields_refl : ∀ fs, jsonBeqFields fs fs = true
  | [] => rfl
  | (k, v) :: fs => by simp [jsonBeqFields, jsonBeq_refl v, jsonBeqFields_refl fs]

end

theorem keyBeq_refl (k : String × Json) : keyBeq k k = true := by
  simp [keyBeq, jsonBeq_refl]

/-- Inserting a key that is absent appends it at the end. -/
theorem cacheInsert_of_lookup_none {k : String × Json} {c : Cache α}
    (h : cacheLookup k c = none) (v : CacheVal α) :
    cacheInsert k v c = c ++ [(k, v)] := by
  induction c with
  | nil => rfl
  | cons e rest ih =>
      by_cases hk : keyBeq k e.1
      · simp [cacheLookup, hk] at h
      · simp [cacheLookup, hk] at h
        simp [cacheInsert, hk, ih h]

theorem cacheLookup_append_single (k k' : String × Json) (v : CacheVal α)
    (c : Cache α) :
    cacheLookup k (c ++ [(k', v)]) =
      match cacheLookup k c with
      | some x => some x
      | none => if keyBeq k k' then some v else none := by
  induction c with
  | nil => simp [cacheLookup]
  | cons e rest ih =>
      by_cases hk : keyBeq k e.1 <;> simp [cacheLookup, hk, ih]

/-- After a fresh insert the key is present. -/
theorem cacheLookup_insert_self {k : String × Json} {c : Cache α}
    (h : cacheLookup k c = none) (v : CacheVal α) :
    cacheLookup k (cacheInsert k v c) = some v := by
  rw [cacheInsert_of_lookup_none h, cacheLookup_append_single, h, keyBeq_refl k]
  simp

/-- A fresh insert does not disturb other keys. -/
theorem cacheLookup_insert_ne {k k' : String × Json} {c : Cache α}
    (h : cacheLookup k' c = none) (hne : keyBeq k k' = false) (v : CacheVal α) :
    cacheLookup k (cacheInsert k' v c) = cacheLookup k c := by
  rw [cacheInsert_of_lookup_none h, cacheLookup_append_single, hne]
  cases hc : cacheLookup k c <;> simp

/-- The offline guard restores the initial environment exactly, whatever it
was. -/
theorem restore_set_offline (e : PyEnv) (k : String) :
    restore_env (set_offline_env e).1 (set_offline_env e).2 k = e k := by
  simp only [set_offline_env, restore_env, HF_ENV_KEYS, List.map, List.foldl]
  cases h1 : e "HF_HUB_OFFLINE" <;> cases h2 : e "TRANSFORMERS_OFFLINE" <;>
    simp only [envSet, envPop] <;>
    by_cases hk1 : k = "HF_HUB_OFFLINE" <;>
    by_cases hk2 : k = "TRANSFORMERS_OFFLINE" <;>
    simp_all

/-- The environment under which the guarded load runs has both offline
flags forced to `"1"`. -/
theorem set_offline_env_forces (e : PyEnv) :
    (set_offline_env e).2 "HF_HUB_OFFLINE" = some "1" ∧
      (set_offline_env e).2 "TRANSFORMERS_OFFLINE" = some "1" := by
  constructor <;> simp [set_offline_env, envSet]

/-! Equation lemmas for the two loaders, one per control path. -/

theorem load_parakeet_hit {o : Oracles α} {repo : Json} {s : MLState α}
    {v : CacheVal α} (h : cacheLookup ("parakeet", repo) s.cache = some v) :
    load_parakeet_model o repo s = (.ok v, s) := by
  simp [load_parakeet_model, h]

theorem load_parakeet_ok {o : Oracles α} {repo : Json} {s : MLState α} {m : α}
    (h1 : cacheLookup ("parakeet", repo) s.cache = none)
    (h2 : o.parakeetImportRes = .ok ())
    (h3 : o.fromPretrained (set_offline_env s.env).2 repo = .ok m) :
    load_parakeet_model o repo s =
      (.ok (.single m),
       { cache := cacheInsert ("parakeet", repo) (.single m) s.cache,
         env := s.env,
         log := s.log ++ [.load "parakeet" repo] }) := by
  have he : restore_env (set_offline_env s.env).1 (set_offline_env s.env).2 = s.env :=
    funext (restore_set_offline s.env)
  simp [load_parakeet_model, h1, h2, h3, he]

theorem load_parakeet_fail {o : Oracles α} {repo : Json} {s : MLState α} {e : String}
    (h1 : cacheLookup ("parakeet", repo) s.cache = none)
    (h2 : o.parakeetImportRes = .ok ())
    (h3 : o.fromPretrained (set_offline_env s.env).2 repo = .error e) :
    load_parakeet_model o repo s =
      (.error ("Model not available offline: " ++ e),
       { cache := s.cache,
         env := s.env,
         log := s.log ++ [.load "parakeet" repo] }) := by
  have he : restore_env (set_offline_env s.env).1 (set_offline_env s.env).2 = s.env :=
    funext (restore_set_offline s.env)
  simp [load_parakeet_model, h1, h2, h3, he]

theorem load_correction_hit {o : Oracles α} {repo : Json} {s : MLState α}
    {v : CacheVal α} (h : cacheLookup ("mlx", repo) s.cache = some v) :
    load_correction_model o repo s = (.ok v, s) := by
  simp [load_correction_model, h]

theorem load_correction_ok {o : Oracles α} {repo : Json} {s : MLState α} {m t : α}
    (h1 : cacheLookup ("mlx", repo) s.cache = none)
    (h2 : o.mlxImportRes = .ok ())
    (h3 : o.mlxLoad (set_offline_env s.env).2 repo = .ok (m, t)) :
    load_correction_model o repo s =
      (.ok (.pair m t),
       { cache := cacheInsert ("mlx", repo) (.pair m t) s.cache,
         env := s.env,
         log := s.log ++ [.load "mlx" repo] }) := by
  have he : restore_env (set_offline_env s.env).1 (set_offline_env s.env).2 = s.env :=
    funext (restore_set_offline s.env)
  simp [load_correction_model, h1, h2, h3, he]

theorem load_correction_fail {o : Oracles α} {repo : Json} {s : MLState α} {e : String}
    (h1 : cacheLookup ("mlx", repo) s.cache = none)
    (h2 : o.mlxImportRes = .ok ())
    (h3 : o.mlxLoad (set_offline_env s.env).2 repo = .error e) :
    load_correction_model o repo s =
      (.error "MLX model not available offline. Please open Settings to download it.",
       { cache := s.cache,
         env := s.env,
         log := s.log ++ [.load "mlx" repo] }) := by
  have he : restore_env (set_offline_env s.env).1 (set_offline_env s.env).2 = s.env :=
    funext (restore_set_offline s.env)
  simp [load_correction_model, h1, h2, h3, he]

/-! ### Cleanup-pipeline lemmas (claims C7, C8, C9) -/

/-- Whether a `<think>` open tag occurs anywhere in the text. -/
def hasThink (l : List Char) : Bool :=
  (splitFirst thinkOpenL l).isSome

def isQuote (c : Char) : Bool :=
  c == '"' || c == '\''

/-- Whether the first or last character satisfies `p`. -/
def boundaryHas (p : Char → Bool) (l : List Char) : Bool :=
  (match l.head? with
   | some c => p c
   | none => false) ||
  (match l.getLast? with
   | some c => p c
   | none => false)

theorem splitFirst_decomp {pat : List Char} :
    ∀ {l pre post : List Char}, splitFirst pat l = some (pre, post) →
      l = pre ++ pat ++ post
  | [], _, _, h => by simp [splitFirst] at h
  | c :: rest, pre, post, h => by
      unfold splitFirst at h
      split at h
      · rename_i hpre
        simp only [Option.some.injEq, Prod.mk.injEq] at h
        obtain ⟨h1, h2⟩ := h
        subst h1
        subst h2
        have hp : pat <+: c :: rest := by simpa using hpre
        obtain ⟨t, ht⟩ := hp
        simp only [List.nil_append]
        rw [← ht, List.drop_left]
      · rename_i hpre
        cases hsf : splitFirst pat rest with
        | none => rw [hsf] at h; exact absurd h (by simp)
        | some pp =>
            obtain ⟨pre2, post2⟩ := pp
            rw [hsf] at h
            simp only [Option.some.injEq, Prod.mk.injEq] at h
            obtain ⟨h1, h2⟩ := h
            subst h1
            subst h2
            have hr := splitFirst_decomp hsf
            rw [List.cons_append, List.cons_append, ← hr]

theorem splitFirst_none_no_occ {pat : List Char} (hp : pat ≠ []) :
    ∀ {l : List Char}, splitFirst pat l = none → ¬ pat <:+: l
  | [], _ => fun hinf => hp (List.eq_nil_of_infix_nil hinf)
  | c :: rest, h => by
      unfold splitFirst at h
      split at h
      · exact absurd h (by simp)
      · rename_i hpre
        cases hsf : splitFirst pat rest with
        | some pp => rw [hsf] at h; exact absurd h (by simp)
        | none =>
            intro hinf
            rcases List.infix_cons_iff.mp hinf with hc | hc
            · have hb : pat.isPrefixOf (c :: rest) = true := by simpa using hc
              simp [hb] at hpre
            · exact splitFirst_none_no_occ hp hsf hc

theorem splitFirst_pre_no_occ {pat : List Char} (hp : pat ≠ []) :
    ∀ {l pre post : List Char}, splitFirst pat l = some (pre, post) →
      ¬ pat <:+: pre
  | [], _, _, h => by simp [splitFirst] at h
  | c :: rest, pre, post, h => by
      unfold splitFirst at h
      split at h
      · simp only [Option.some.injEq, Prod.mk.injEq] at h
        obtain ⟨h1, _⟩ := h
        subst h1
        exact fun hinf => hp (List.eq_nil_of_infix_nil hinf)
      · rename_i hpre
        cases hsf : splitFirst pat rest with
        | none => rw [hsf] at h; exact absurd h (by simp)
        | some pp =>
            obtain ⟨pre2, post2⟩ := pp
            rw [hsf] at h
            simp only [Option.some.injEq, Prod.mk.injEq] at h
            obtain ⟨h1, h2⟩ := h
            subst h1
            intro hinf
            rcases List.infix_cons_iff.mp hinf with hc | hc
            · have hrest := splitFirst_decomp hsf
              have h5 : pre2 <+: rest :=
                ⟨pat ++ post2, by rw [hrest, List.append_assoc]⟩
              obtain ⟨t5, ht5⟩ := h5
              have h6 : c :: pre2 <+: c :: rest :=
                ⟨t5, by rw [List.cons_append, ht5]⟩
              have h7 := hc.trans h6
              have hb : pat.isPrefixOf (c :: rest) = true := by simpa using h7
              simp [hb] at hpre
            · exact splitFirst_pre_no_occ hp hsf hc

theorem hasThink_false_none {l : List Char} (h : hasThink l = false) :
    splitFirst thinkOpenL l = none := by
  cases hsf : splitFirst thinkOpenL l with
  | none => rfl
  | some pp => rw [hasThink, hsf] at h; simp at h

theorem hasThink_false_iff {l : List Char} :
    hasThink l = false ↔ ¬ thinkOpenL <:+: l := by
  constructor
  · intro h
    exact splitFirst_none_no_occ (by decide) (hasThink_false_none h)
  · intro h
    cases hsf : splitFirst thinkOpenL l with
    | none => simp [hasThink, hsf]
    | some pp =>
        obtain ⟨pre, post⟩ := pp
        have hin : thinkOpenL <:+: l := by
          rw [splitFirst_decomp hsf, List.append_assoc]
          exact List.infix_append' _ _ _
        exact absurd hin h

theorem hasThink_false_of_sub {l t : List Char} (hinf : t <:+: l)
    (h : hasThink l = false) : hasThink t = false := by
  rw [hasThink_false_iff] at h ⊢
  exact fun hc => h (hc.trans hinf)

theorem stripThink_no_occ {l : List Char}
    (h : splitFirst thinkOpenL l = none) : stripThink l = l := by
  rw [stripThink]
  simp [stripThinkFuel, h]

theorem stripThinkTail_no_occ {l : List Char}
    (h : splitFirst thinkOpenL l = none) : stripThinkTail l = l := by
  simp [stripThinkTail, h]

theorem stripChars_within (p : Char → Bool) (l : List Char) :
    stripChars p l <:+: l := by
  obtain ⟨t1, ht1⟩ := List.dropWhile_suffix (l := l) p
  obtain ⟨t2, ht2⟩ := List.dropWhile_suffix (l := (l.dropWhile p).reverse) p
  have hrev : ((l.dropWhile p).reverse.dropWhile p).reverse ++ t2.reverse
      = l.dropWhile p := by
    have hc := congrArg List.reverse ht2
    simpa [List.reverse_append] using hc
  refine ⟨t1, t2.reverse, ?_⟩
  rw [stripChars, List.append_assoc, hrev, ht1]

theorem dropWhile_head_not {p : Char → Bool} :
    ∀ {l : List Char} {c : Char}, (l.dropWhile p).head? = some c → p c = false
  | [], _, h => by simp [List.dropWhile] at h
  | a :: l, c, h => by
      rw [List.dropWhile_cons] at h
      split at h
      · exact dropWhile_head_not h
      · rename_i ha
        simp only [List.head?_cons, Option.some.injEq] at h
        subst h
        simpa using ha

theorem stripChars_head_not {p : Char → Bool} {l : List Char} {c : Char}
    (h : (stripChars p l).head? = some c) : p c = false := by
  rw [stripChars, List.head?_reverse] at h
  have hd : (l.dropWhile p).reverse.dropWhile p ≠ [] := by
    intro he
    rw [he] at h
    simp at h
  obtain ⟨t, ht⟩ := List.dropWhile_suffix (l := (l.dropWhile p).reverse) p
  have hg : ((l.dropWhile p).reverse).getLast? = some c := by
    rw [← ht, List.getLast?_append_of_ne_nil _ hd]
    exact h
  rw [List.getLast?_reverse] at hg
  exact dropWhile_head_not hg

theorem stripChars_getLast_not {p : Char → Bool} {l : List Char} {c : Char}
    (h : (stripChars p l).getLast? = some c) : p c = false := by
  rw [stripChars, List.getLast?_reverse] at h
  exact dropWhile_head_not h

theorem stripChars_eq_self {p : Char → Bool} {l : List Char}
    (hh : ∀ c, l.head? = some c → p c = false)
    (hl : ∀ c, l.getLast? = some c → p c = false) :
    stripChars p l = l := by
  have h1 : l.dropWhile p = l := by
    cases l with
    | nil => rfl
    | cons a t => rw [List.dropWhile_cons, hh a rfl]; simp
  rw [stripChars, h1]
  have h2 : l.reverse.dropWhile p = l.reverse := by
    cases hr : l.reverse with
    | nil => simp
    | cons a t =>
        have ha : l.getLast? = some a := by
          rw [← List.head?_reverse, hr]
          rfl
        rw [List.dropWhile_cons, hl a ha]
        simp
  rw [h2, List.reverse_reverse]

/-! ### Concrete instances used by witnesses and counterexamples -/

/-- A benign oracle bundle over trivial model handles. -/
def unitOracles : Oracles Unit where
  parakeetImportRes := .ok ()
  fromPretrained := fun _ _ => .ok ()
  mlxImportRes := .ok ()
  mlxLoad := fun _ _ => .ok ((), ())
  pathExists := fun _ => true
  pathReadable := fun _ => true
  numpyImportRes := .ok ()
  mlxCoreImportRes := .ok ()
  audioImportRes := .ok ()
  fromfileRes := .ok ()
  logmelRes := .ok ()
  parakeetGenerate := .ok (.str "hi")
  applyChatDefault := fun _ => .ok "PROMPT"
  applyChatNoThink := fun _ => .ok "NOTHINK"
  mlxGenImportRes := .ok ()
  genFull := fun _ _ => .ok "out"
  genBasic := fun _ _ => .ok "out"

/-- Fresh daemon state: empty cache, empty environment, empty log. -/
def initState : MLState Unit := ⟨[], fun _ => none, []⟩

/-! ### Claim C4 -/

/-- C4: whenever either loader reaches the guarded load (cache miss and
successful import), the load runs under an environment with
`HF_HUB_OFFLINE` and `TRANSFORMERS_OFFLINE` both `"1"`, and the values of
every environment key after the call — in particular the two offline
flags — equal their values before the call, on both the success and the
failure path of the underlying load. -/
theorem offline_guard_env_restored {α : Type} (o : Oracles α) (repo : Json)
    (s : MLState α) :
    ((set_offline_env s.env).2 "HF_HUB_OFFLINE" = some "1" ∧
      (set_offline_env s.env).2 "TRANSFORMERS_OFFLINE" = some "1") ∧
    (cacheLookup ("parakeet", repo) s.cache = none →
      o.parakeetImportRes = .ok () →
      ∀ k, ((load_parakeet_model o repo s).2).env k = s.env k) ∧
    (cacheLookup ("mlx", repo) s.cache = none →
      o.mlxImportRes = .ok () →
      ∀ k, ((load_correction_model o repo s).2).env k = s.env k) := by
  refine ⟨set_offline_env_forces s.env, ?_, ?_⟩
  · intro h1 h2 k
    cases h3 : o.fromPretrained (set_offline_env s.env).2 repo with
    | ok m => rw [load_parakeet_ok h1 h2 h3]
    | error e => rw [load_parakeet_fail h1 h2 h3]
  · intro h1 h2 k
    rcases h3 : o.mlxLoad (set_offline_env s.env).2 repo with e | ⟨m, t⟩
    · rw [load_correction_fail h1 h2 h3]
    · rw [load_correction_ok h1 h2 h3]

theorem offline_guard_env_restored_witness :
    ((load_parakeet_model unitOracles (Json.str "repo-a") initState).2).env
        "HF_HUB_OFFLINE" = none ∧
    ((load_correction_model unitOracles (Json.str "repo-a") initState).2).env
        "TRANSFORMERS_OFFLINE" = none := by
  have h := offline_guard_env_restored unitOracles (Json.str "repo-a") initState
  exact ⟨(h.2.1 rfl rfl "HF_HUB_OFFLINE").trans rfl,
         (h.2.2 rfl rfl "TRANSFORMERS_OFFLINE").trans rfl⟩

/-! ### Claim C3 -/

/-- C3: the model cache is read-through with retry-on-failure.  A hit
returns the cached entry with no state change (no loader invocation); a
miss invokes the underlying loader exactly once (one ghost `load` event),
caching the result only on success so a second call is a hit; on failure
nothing is cached and a subsequent call invokes the loader again; and
loads of two distinct repos under the same type are two distinct loader
invocations. -/
theorem model_cache_read_through {α : Type} (o : Oracles α) (repo repo2 : Json)
    (s : MLState α) :
    (∀ v, cacheLookup ("parakeet", repo) s.cache = some v →
        load_parakeet_model o repo s = (.ok v, s)) ∧
    (∀ v, cacheLookup ("mlx", repo) s.cache = some v →
        load_correction_model o repo s = (.ok v, s)) ∧
    (cacheLookup ("parakeet", repo) s.cache = none →
      o.parakeetImportRes = .ok () →
      (∀ m, o.fromPretrained (set_offline_env s.env).2 repo = .ok m →
        load_parakeet_model o repo s =
          (.ok (.single m),
           ⟨cacheInsert ("parakeet", repo) (.single m) s.cache, s.env,
            s.log ++ [.load "parakeet" repo]⟩) ∧
        load_parakeet_model o repo ((load_parakeet_model o repo s).2) =
          (.ok (.single m), (load_parakeet_model o repo s).2)) ∧
      (∀ e, o.fromPretrained (set_offline_env s.env).2 repo = .error e →
        load_parakeet_model o repo s =
          (.error ("Model not available offline: " ++ e),
           ⟨s.cache, s.env, s.log ++ [.load "parakeet" repo]⟩) ∧
        ((load_parakeet_model o repo ((load_parakeet_model o repo s).2)).2).log =
          s.log ++ [.load "parakeet" repo, .load "parakeet" repo])) ∧
    (cacheLookup ("mlx", repo) s.cache = none →
      o.mlxImportRes = .ok () →
      (∀ m t, o.mlxLoad (set_offline_env s.env).2 repo = .ok (m, t) →
        load_correction_model o repo s =
          (.ok (.pair m t),
           ⟨cacheInsert ("mlx", repo) (.pair m t) s.cache, s.env,
            s.log ++ [.load "mlx" repo]⟩) ∧
        load_correction_model o repo ((load_correction_model o repo s).2) =
          (.ok (.pair m t), (load_correction_model o repo s).2)) ∧
      (∀ e, o.mlxLoad (set_offline_env s.env).2 repo = .error e →
        load_correction_model o repo s =
          (.error "MLX model not available offline. Please open Settings to download it.",
           ⟨s.cache, s.env, s.log ++ [.load "mlx" repo]⟩))) ∧
    (jsonBeq repo2 repo = false →
      cacheLookup ("parakeet", repo) s.cache = none →
      cacheLookup ("parakeet", repo2) s.cache = none →
      o.parakeetImportRes = .ok () →
      ∀ m m2, o.fromPretrained (set_offline_env s.env).2 repo = .ok m →
        o.fromPretrained (set_offline_env s.env).2 repo2 = .ok m2 →
        ((load_parakeet_model o repo2 ((load_parakeet_model o repo s).2)).2).log =
          s.log ++ [.load "parakeet" repo, .load "parakeet" repo2]) := by
  refine ⟨fun v h => load_parakeet_hit h, fun v h => load_correction_hit h,
    ?_, ?_, ?_⟩
  · intro h1 h2
    constructor
    · intro m h3
      have heq := load_parakeet_ok h1 h2 h3
      refine ⟨heq, ?_⟩
      rw [heq]
      exact load_parakeet_hit (cacheLookup_insert_self h1 _)
    · intro e h3
      have heq := load_parakeet_fail h1 h2 h3
      refine ⟨heq, ?_⟩
      rw [heq]
      have heq2 := load_parakeet_fail (s := ⟨s.cache, s.env,
        s.log ++ [.load "parakeet" repo]⟩) h1 h2 h3
      rw [heq2]
      simp
  · intro h1 h2
    constructor
    · intro m t h3
      have heq := load_correction_ok h1 h2 h3
      refine ⟨heq, ?_⟩
      rw [heq]
      exact load_correction_hit (cacheLookup_insert_self h1 _)
    · intro e h3
      exact load_correction_fail h1 h2 h3
  · intro hne h1 h1' h2 m m2 h3 h3'
    have heq := load_parakeet_ok h1 h2 h3
    rw [heq]
    have hkey : keyBeq ("parakeet", repo2) ("parakeet", repo) = false := by
      simp [keyBeq, hne]
    have hl : cacheLookup ("parakeet", repo2)
        (cacheInsert ("parakeet", repo) (.single m) s.cache) = none := by
      rw [cacheLookup_insert_ne h1 hkey]
      exact h1'
    have heq2 := load_parakeet_ok (s := ⟨cacheInsert ("parakeet", repo)
      (.single m) s.cache, s.env, s.log ++ [.load "parakeet" repo]⟩) hl h2 h3'
    rw [heq2]
    simp

theorem model_cache_read_through_witness :
    ((load_parakeet_model unitOracles (Json.str "b")
        ((load_parakeet_model unitOracles (Json.str "a") initState).2)).2).log =
      [.load "parakeet" (Json.str "a"), .load "parakeet" (Json.str "b")] := by
  have h := (model_cache_read_through unitOracles (Json.str "a") (Json.str "b")
    initState).2.2.2.2 (by decide) rfl rfl rfl () () rfl rfl
  simpa using h

/-! ### Claim C10 -/

/-- A generation attempt never records a `load` event. -/
theorem safe_generate_loadCount (o : Oracles α) (p : String) (n : Nat)
    (s : MLState α) :
    ((safe_generate o p n s).2).log.countP LogEvent.isLoad =
      s.log.countP LogEvent.isLoad := by
  unfold safe_generate
  cases o.mlxGenImportRes with
  | error e => rfl
  | ok u =>
      cases o.genFull p n with
      | ok g => simp [List.countP_append, LogEvent.isLoad]
      | error e =>
          cases e with
          | typeErr m =>
              cases o.genBasic p n with
              | ok g => simp [List.countP_append, LogEvent.isLoad]
              | error e2 => simp [List.countP_append, LogEvent.isLoad]
          | exc m => simp [List.countP_append, LogEvent.isLoad]

/-- After its initial model load, `correct` only records generation
events. -/
theorem correct_loadCount (o : Oracles α) (r text prompt : Json) (s : MLState α) :
    ((correct o r text prompt s).2).log.countP LogEvent.isLoad =
      ((load_correction_model o r s).2).log.countP LogEvent.isLoad := by
  unfold correct
  dsimp only
  cases hl : (load_correction_model o r s).1 with
  | error e => rfl
  | ok v =>
    cases v with
    | single m => rfl
    | pair m tk =>
      cases hp : sysPromptOf prompt with
      | error e => rfl
      | ok sp =>
        cases text with
        | str t =>
            dsimp only
            have h2 := safe_generate_loadCount o
              (safe_chat_template o [⟨"system", Json.str sp⟩, ⟨"user", Json.str t⟩]
                sp (Json.str t))
              (max 128 (min 4096 (pyCountWords t * 4))) ((load_correction_model o r s).2)
            cases hg : (safe_generate o
                (safe_chat_template o [⟨"system", Json.str sp⟩, ⟨"user", Json.str t⟩]
                  sp (Json.str t))
                (max 128 (min 4096 (pyCountWords t * 4)))
                ((load_correction_model o r s).2)).1 with
            | error e => exact h2
            | ok g =>
                dsimp only
                split
                · cases hnt : o.applyChatNoThink
                    [⟨"system", Json.str sp⟩, ⟨"user", Json.str t⟩] with
                  | error e2 => exact h2
                  | ok p2 =>
                      dsimp only
                      have h3 := safe_generate_loadCount o p2
                        (max 128 (min 4096 (pyCountWords t * 4)))
                        ((safe_generate o
                          (safe_chat_template o
                            [⟨"system", Json.str sp⟩, ⟨"user", Json.str t⟩]
                            sp (Json.str t))
                          (max 128 (min 4096 (pyCountWords t * 4)))
                          ((load_correction_model o r s).2)).2)
                      cases hg2 : (safe_generate o p2
                          (max 128 (min 4096 (pyCountWords t * 4)))
                          ((safe_generate o
                            (safe_chat_template o
                              [⟨"system", Json.str sp⟩, ⟨"user", Json.str t⟩]
                              sp (Json.str t))
                            (max 128 (min 4096 (pyCountWords t * 4)))
                            ((load_correction_model o r s).2)).2)).1 with
                      | error e2 => exact h3.trans h2
                      | ok g2 => exact h3.trans h2
                · exact h2
        | null => rfl
        | bool b => rfl
        | num n => rfl
        | arr xs => rfl
        | obj fs => rfl

/-- C10: warmup types `"mlx"` and `"correction"` are interchangeable
aliases — the dispatcher body treats the two requests identically — and
both store under the single key `("mlx", repo)`, so an `"mlx"` warmup
followed by a `"correction"` warmup performs one underlying load, and a
subsequent `correct` request for the same repo adds no further load
event. -/
theorem warmup_mlx_correction_alias {α : Type} (o : Oracles α)
    (r text prompt : Json) (s : MLState α) :
    (handleBody o (Json.str "warmup")
        (Json.obj [("type", Json.str "mlx"), ("repo", r)]) s =
      handleBody o (Json.str "warmup")
        (Json.obj [("type", Json.str "correction"), ("repo", r)]) s) ∧
    (cacheLookup ("mlx", r) s.cache = none →
      o.mlxImportRes = .ok () →
      ∀ m t, o.mlxLoad (set_offline_env s.env).2 r = .ok (m, t) →
        load_correction_model o r ((load_correction_model o r s).2) =
          (.ok (.pair m t), (load_correction_model o r s).2) ∧
        ((load_correction_model o r ((load_correction_model o r s).2)).2).log =
          s.log ++ [LogEvent.load "mlx" r] ∧
        ((correct o r text prompt ((load_correction_model o r s).2)).2).log.countP
            LogEvent.isLoad =
          List.countP LogEvent.isLoad (s.log ++ [LogEvent.load "mlx" r])) := by
  constructor
  · rfl
  · intro h1 h2 m t h3
    have heq := load_correction_ok h1 h2 h3
    have hhit : cacheLookup ("mlx", r)
        ((load_correction_model o r s).2).cache = some (.pair m t) := by
      rw [heq]
      exact cacheLookup_insert_self h1 _
    have hsecond := load_correction_hit (o := o) hhit
    refine ⟨hsecond, ?_, ?_⟩
    · rw [hsecond, heq]
    · rw [correct_loadCount o r text prompt ((load_correction_model o r s).2),
        hsecond]
      rw [heq]

theorem warmup_mlx_correction_alias_witness :
    ((load_correction_model unitOracles (Json.str "m")
        ((load_correction_model unitOracles (Json.str "m") initState).2)).2).log =
      [LogEvent.load "mlx" (Json.str "m")] ∧
    ((correct unitOracles (Json.str "m") (Json.str "hi") Json.null
        ((load_correction_model unitOracles (Json.str "m") initState).2)).2).log.countP
        LogEvent.isLoad = 1 := by
  have h := (warmup_mlx_correction_alias unitOracles (Json.str "m")
    (Json.str "hi") Json.null initState).2 rfl rfl () () rfl
  exact ⟨by simpa using h.2.1, by simpa using h.2.2⟩

/-! ### Claim C7 -/

/-- C7: the correction cleanup removes every complete
`<think>…</think>` segment (non-greedy, whole-span) and also removes a
trailing unterminated `<think>` segment: after the two removal passes no
`<think>` tag remains, for every input; the spec's concrete examples
hold, as do a two-segment input and a non-greedy case that keeps a stray
close tag. -/
theorem think_segments_removed :
    (∀ l : List Char, hasThink (stripThinkTail (stripThink l)) = false) ∧
    cleanupText "<think>reasoning</think>answer" = "answer" ∧
    cleanupText "<think>unterminated reasoning" = "" ∧
    cleanupText "<think>a</think>x<think>b</think>y" = "xy" ∧
    cleanupText "<think>a</think>b</think>c" = "b</think>c" := by
  refine ⟨?_, by decide, by decide, by decide, by decide⟩
  intro l
  unfold stripThinkTail
  cases hsf : splitFirst thinkOpenL (stripThink l) with
  | none =>
      exact hasThink_false_iff.mpr (splitFirst_none_no_occ (by decide) hsf)
  | some pp =>
      obtain ⟨pre, post⟩ := pp
      exact hasThink_false_iff.mpr (splitFirst_pre_no_occ (by decide) hsf)

/-! ### Claim C8 -/

/-- C8 counterexample: on `'"\'hello\'"'` one application of the cleanup
strips BOTH the double-quote layer and the single-quote layer, yielding
`hello`, not the single-layer result `'hello'` the claim requires. -/
theorem quote_trim_one_layer_refuted :
    cleanupText "\"\x27hello\x27\"" = "hello" ∧
    (("hello" : String) == "\x27hello\x27") = false := by
  exact ⟨by decide, by decide⟩

/-- C8 (amended): after tag removal the cleanup is exactly the chain
`strip()`, then `strip('"')` (all surrounding double quotes), then
`strip("'")` (all surrounding single quotes), then `strip()`; hence one
application removes first the double-quote and then the single-quote
layer: `'"hello"'` → `hello` and `'"\'hello\'"'` → `hello`. -/
theorem quote_trim_layers (s : String) (h : hasThink s.toList = false) :
    cleanupText s =
      (stripChars pyIsSpace
        (stripChars (fun c => c == '\'')
          (stripChars (fun c => c == '"')
            (stripChars pyIsSpace s.toList)))).asString ∧
    cleanupText "\"hello\"" = "hello" ∧
    cleanupText "\"\x27hello\x27\"" = "hello" := by
  refine ⟨?_, by decide, by decide⟩
  have hn := hasThink_false_none h
  rw [cleanupText, cleanupList, stripThink_no_occ hn, stripThinkTail_no_occ hn,
    quadStrip]

theorem quote_trim_layers_witness :
    cleanupText "\"ok\"" =
      (stripChars pyIsSpace
        (stripChars (fun c => c == '\'')
          (stripChars (fun c => c == '"')
            (stripChars pyIsSpace ("\"ok\"" : String).toList)))).asString :=
  (quote_trim_layers "\"ok\"" (by decide)).1

/-! ### Claim C9 -/

/-- C9 counterexample: `'"x"'` contains no think tags, yet applying the
cleanup twice gives `x` while one application gives `"x"` — the
single-quote strip exposes a double-quote layer that the second
application removes, so the cleanup is not idempotent on tag-free
strings. -/
theorem cleanup_not_idempotent :
    hasThink ("\x27\"x\"\x27" : String).toList = false ∧
    cleanupText "\x27\"x\"\x27" = "\"x\"" ∧
    cleanupText (cleanupText "\x27\"x\"\x27") = "x" ∧
    (("x" : String) == "\"x\"") = false := by
  exact ⟨by decide, by decide, by decide, by decide⟩

/-- C9 (amended): the cleanup is idempotent on strings with no think tags
whose once-cleaned form does not begin or end with a quote character (the
counterexample forces exactly this exception: a quote layer exposed by
the first application is stripped again by the second). -/
theorem cleanup_idem_on_clean (s : String)
    (h1 : hasThink s.toList = false)
    (h2 : boundaryHas isQuote (cleanupList s.toList) = false) :
    cleanupText (cleanupText s) = cleanupText s := by
  have hn := hasThink_false_none h1
  have hr : cleanupList s.toList = quadStrip s.toList := by
    rw [cleanupList, stripThink_no_occ hn, stripThinkTail_no_occ hn]
  have hinf : cleanupList s.toList <:+: s.toList := by
    rw [hr, quadStrip]
    exact (stripChars_within _ _).trans ((stripChars_within _ _).trans
      ((stripChars_within _ _).trans (stripChars_within _ _)))
  have hnr := hasThink_false_none (hasThink_false_of_sub hinf h1)
  rw [boundaryHas] at h2
  obtain ⟨hbf, hbg⟩ := Bool.or_eq_false_iff.mp h2
  have hbh : ∀ c, (cleanupList s.toList).head? = some c → isQuote c = false := by
    intro c hc
    rw [hc] at hbf
    simpa using hbf
  have hbl : ∀ c, (cleanupList s.toList).getLast? = some c → isQuote c = false := by
    intro c hc
    rw [hc] at hbg
    simpa using hbg
  have hwsh : ∀ c, (cleanupList s.toList).head? = some c → pyIsSpace c = false := by
    intro c hc
    rw [hr, quadStrip] at hc
    exact stripChars_head_not hc
  have hwsl : ∀ c, (cleanupList s.toList).getLast? = some c → pyIsSpace c = false := by
    intro c hc
    rw [hr, quadStrip] at hc
    exact stripChars_getLast_not hc
  have hdqh : ∀ c, (cleanupList s.toList).head? = some c → (c == '"') = false :=
    fun c hc => (Bool.or_eq_false_iff.mp (hbh c hc)).1
  have hdql : ∀ c, (cleanupList s.toList).getLast? = some c → (c == '"') = false :=
    fun c hc => (Bool.or_eq_false_iff.mp (hbl c hc)).1
  have hsqh : ∀ c, (cleanupList s.toList).head? = some c → (c == '\'') = false :=
    fun c hc => (Bool.or_eq_false_iff.mp (hbh c hc)).2
  have hsql : ∀ c, (cleanupList s.toList).getLast? = some c → (c == '\'') = false :=
    fun c hc => (Bool.or_eq_false_iff.mp (hbl c hc)).2
  have hfin : cleanupList (cleanupList s.toList) = cleanupList s.toList := by
    calc cleanupList (cleanupList s.toList)
        = quadStrip (stripThinkTail (stripThink (cleanupList s.toList))) := rfl
      _ = quadStrip (cleanupList s.toList) := by
          rw [stripThink_no_occ hnr, stripThinkTail_no_occ hnr]
      _ = cleanupList s.toList := by
          rw [quadStrip, stripChars_eq_self hwsh hwsl,
            stripChars_eq_self hdqh hdql, stripChars_eq_self hsqh hsql,
            stripChars_eq_self hwsh hwsl]
  simp only [cleanupText, List.toList_asString]
  rw [hfin]

theorem cleanup_idem_on_clean_witness :
    cleanupText (cleanupText "ok") = cleanupText "ok" :=
  cleanup_idem_on_clean "ok" (by decide) (by decide)


/-! ### Claim C6 -/

/-- C6 counterexample: `[42]` is a non-empty list whose first element has
no `text` attribute, so it matches none of the five claimed shapes, yet
extraction returns `str(first_item)` as a success instead of raising an
extraction error. -/
theorem extract_fallback_not_error :
    getAttr (.int 42) "text" = none ∧
    extract_parakeet_text (.list [.int 42]) = .ok (.str "42") :=
  ⟨rfl, rfl⟩

/-- C6 (amended): extraction accepts the five claimed shapes in source
order, and additionally a non-empty list whose first element lacks a
`text` attribute yields `str(first_item)` (not an error); every value
matching none of these cases raises the extraction error naming the
result; a falsy (`None`/empty) text value yields the empty string. -/
theorem extract_parakeet_shapes :
    (∀ (attrs : List (String × PyVal)) (rest : List PyVal) v,
      attrs.lookup "text" = some v →
      extract_parakeet_text (.list (.object attrs :: rest)) = .ok (orEmptyV v)) ∧
    (∀ (first : PyVal) (rest : List PyVal),
      getAttr first "text" = none →
      extract_parakeet_text (.list (first :: rest)) = .ok (.str (pyStrV first))) ∧
    (∀ attrs v, attrs.lookup "text" = some v →
      extract_parakeet_text (.object attrs) = .ok (orEmptyV v)) ∧
    (∀ attrs x xs, attrs.lookup "text" = none →
      attrs.lookup "texts" = some (.list (x :: xs)) →
      extract_parakeet_text (.object attrs) = .ok (orEmptyV x)) ∧
    (∀ fields v, fields.lookup "text" = some v →
      extract_parakeet_text (.dict fields) = .ok (orEmptyV v)) ∧
    (∀ fields x xs, fields.lookup "text" = none →
      fields.lookup "texts" = some (.list (x :: xs)) →
      extract_parakeet_text (.dict fields) = .ok (orEmptyV x)) ∧
    (extract_parakeet_text .none_ = .error (extractErrMsg .none_)) ∧
    (∀ n : Int, extract_parakeet_text (.int n) = .error (extractErrMsg (.int n))) ∧
    (∀ t : String, extract_parakeet_text (.str t) = .error (extractErrMsg (.str t))) ∧
    (extract_parakeet_text (.list []) = .error (extractErrMsg (.list []))) ∧
    (∀ attrs, attrs.lookup "text" = none → attrs.lookup "texts" = none →
      extract_parakeet_text (.object attrs) = .error (extractErrMsg (.object attrs))) ∧
    (∀ fields, fields.lookup "text" = none → fields.lookup "texts" = none →
      extract_parakeet_text (.dict fields) = .error (extractErrMsg (.dict fields))) ∧
    (orEmptyV .none_ = .str "" ∧ orEmptyV (.str "") = .str "") := by
  refine ⟨?_, ?_, ?_, ?_, ?_, ?_, rfl, fun n => rfl, fun t => rfl, rfl, ?_, ?_,
    rfl, rfl⟩
  · intro attrs rest v h
    simp [extract_parakeet_text, getAttr, h]
  · intro first rest h
    simp [extract_parakeet_text, h]
  · intro attrs v h
    simp [extract_parakeet_text, getAttr, h]
  · intro attrs x xs h1 h2
    simp [extract_parakeet_text, getAttr, h1, h2, pyTruthyV, index0, Except.map]
  · intro fields v h
    simp [extract_parakeet_text, getAttr, extractFromDict, h]
  · intro fields x xs h1 h2
    simp [extract_parakeet_text, getAttr, extractFromDict, h1, h2, pyTruthyV,
      index0, Except.map]
  · intro attrs h1 h2
    simp [extract_parakeet_text, getAttr, extractFromDict, h1, h2]
  · intro fields h1 h2
    simp [extract_parakeet_text, getAttr, extractFromDict, h1, h2]

theorem extract_parakeet_shapes_witness :
    extract_parakeet_text (.list [.object [("text", .str "hi")]]) =
      .ok (orEmptyV (.str "hi")) :=
  extract_parakeet_shapes.1 [("text", .str "hi")] [] (.str "hi") rfl


/-! ### Claim C5 -/

theorem safe_generate_ok {o : Oracles α} {p : String} {n : Nat} {g : String}
    (himp : o.mlxGenImportRes = .ok ())
    (hgen : o.genFull p n = .ok g) (s : MLState α) :
    safe_generate o p n s = (.ok g, { s with log := s.log ++ [.gen p n] }) := by
  simp [safe_generate, himp, hgen]

theorem safe_generate_exc {o : Oracles α} {p : String} {n : Nat} {em : String}
    (himp : o.mlxGenImportRes = .ok ())
    (hgen : o.genFull p n = .error (.exc em)) (s : MLState α) :
    safe_generate o p n s = (.error em, { s with log := s.log ++ [.gen p n] }) := by
  simp [safe_generate, himp, hgen]

/-- C5: when the first generation attempt completes but cleans up to the
empty string, exactly one retry happens — the prompt is rebuilt with
thinking disabled and generation repeats with the same token budget and
the same prefix-strip/tag-strip/trim cleanup; if the retry's templating
or generation raises, the exception is swallowed and the first (empty)
cleaned text is returned; in every case `correct` returns a success
payload `{success: true, text}` and never raises for an empty result. -/
theorem correct_empty_retry {α : Type} (o : Oracles α) (repo prompt : Json)
    (t : String) (s : MLState α) (m tk : α) (sp : String)
    (hcache : cacheLookup ("mlx", repo) s.cache = some (.pair m tk))
    (hsys : sysPromptOf prompt = .ok sp)
    (himp : o.mlxGenImportRes = .ok ())
    (g : String)
    (hgen : o.genFull
      (safe_chat_template o [⟨"system", Json.str sp⟩, ⟨"user", Json.str t⟩]
        sp (Json.str t))
      (max 128 (min 4096 (pyCountWords t * 4))) = .ok g)
    (hempty : cleanupText
      (dropEcho
        (safe_chat_template o [⟨"system", Json.str sp⟩, ⟨"user", Json.str t⟩]
          sp (Json.str t)) g) = "") :
    (∀ p2 g2,
      o.applyChatNoThink [⟨"system", Json.str sp⟩, ⟨"user", Json.str t⟩] = .ok p2 →
      o.genFull p2 (max 128 (min 4096 (pyCountWords t * 4))) = .ok g2 →
      correct o repo (Json.str t) prompt s =
        (.ok (correctionResult (cleanupText (dropEcho p2 g2))),
         { s with log := s.log ++
            [.gen (safe_chat_template o
                [⟨"system", Json.str sp⟩, ⟨"user", Json.str t⟩] sp (Json.str t))
              (max 128 (min 4096 (pyCountWords t * 4))),
             .gen p2 (max 128 (min 4096 (pyCountWords t * 4)))] })) ∧
    (∀ e2,
      o.applyChatNoThink [⟨"system", Json.str sp⟩, ⟨"user", Json.str t⟩] = .error e2 →
      correct o repo (Json.str t) prompt s =
        (.ok (correctionResult ""),
         { s with log := s.log ++
            [.gen (safe_chat_template o
                [⟨"system", Json.str sp⟩, ⟨"user", Json.str t⟩] sp (Json.str t))
              (max 128 (min 4096 (pyCountWords t * 4)))] })) ∧
    (∀ p2 em,
      o.applyChatNoThink [⟨"system", Json.str sp⟩, ⟨"user", Json.str t⟩] = .ok p2 →
      o.genFull p2 (max 128 (min 4096 (pyCountWords t * 4))) = .error (.exc em) →
      correct o repo (Json.str t) prompt s =
        (.ok (correctionResult ""),
         { s with log := s.log ++
            [.gen (safe_chat_template o
                [⟨"system", Json.str sp⟩, ⟨"user", Json.str t⟩] sp (Json.str t))
              (max 128 (min 4096 (pyCountWords t * 4))),
             .gen p2 (max 128 (min 4096 (pyCountWords t * 4)))] })) := by
  have hload := load_correction_hit (o := o) hcache
  refine ⟨?_, ?_, ?_⟩
  · intro p2 g2 hnt hgen2
    unfold correct
    rw [hload]
    try dsimp only
    rw [hsys]
    try dsimp only
    rw [safe_generate_ok himp hgen s]
    try dsimp only
    rw [hempty]
    simp only [reduceIte]
    rw [hnt]
    try dsimp only
    rw [safe_generate_ok himp hgen2 _]
    simp
  · intro e2 hnt
    unfold correct
    rw [hload]
    try dsimp only
    rw [hsys]
    try dsimp only
    rw [safe_generate_ok himp hgen s]
    try dsimp only
    rw [hempty]
    simp only [reduceIte]
    rw [hnt]
  · intro p2 em hnt hgen2
    unfold correct
    rw [hload]
    try dsimp only
    rw [hsys]
    try dsimp only
    rw [safe_generate_ok himp hgen s]
    try dsimp only
    rw [hempty]
    simp only [reduceIte]
    rw [hnt]
    try dsimp only
    rw [safe_generate_exc himp hgen2 _]
    simp

/-- Oracle bundle whose generation yields pure thinking on the first
prompt and an answer on the retry prompt. -/
def retryOracles : Oracles Unit :=
  { unitOracles with
    applyChatDefault := fun _ => .ok "P1"
    applyChatNoThink := fun _ => .ok "P2"
    genFull := fun p _ => if p = "P1" then .ok "<think>x" else .ok "fixed"
    genBasic := fun _ _ => .ok "" }

/-- State with the correction model for repo `"r"` already cached. -/
def cachedState : MLState Unit :=
  ⟨[(("mlx", Json.str "r"), .pair () ())], fun _ => none, []⟩

theorem correct_empty_retry_witness :
    correct retryOracles (Json.str "r") (Json.str "hello") Json.null cachedState =
      (.ok (correctionResult "fixed"),
       { cachedState with log := [LogEvent.gen "P1" 128, LogEvent.gen "P2" 128] }) := by
  have h := (correct_empty_retry retryOracles (Json.str "r") Json.null "hello"
    cachedState () () DEFAULT_CORRECTION_PROMPT rfl rfl rfl "<think>x"
    rfl rfl).1 "P2" "fixed" rfl rfl
  rw [h]
  rfl


/-! ### Claims C1 and C2: the dispatcher loop -/

/-- Whether a JSON object carries the given top-level key. -/
def hasKeyJ (j : Json) (k : String) : Bool :=
  match j with
  | .obj fields => fields.any (fun p => p.1 == k)
  | _ => false

/-- A well-formed response: exactly one of `result` and `error`. -/
def wellFormedResp (j : Json) : Bool :=
  hasKeyJ j "result" != hasKeyJ j "error"

theorem wellFormedResp_ok (req_id result : Json) :
    wellFormedResp (okResponse req_id result) = true := rfl

theorem wellFormedResp_err (req_id : Json) (msg : String) :
    wellFormedResp (errResponse req_id msg) = true := rfl

/-- On a JSON-object request, `_handle_request` reduces to dispatching the
body and wrapping its outcome in the success or error envelope. -/
theorem handle_request_obj (o : Oracles α) (fields : List (String × Json))
    (s : MLState α) :
    handle_request o (Json.obj fields) s =
      (match handleBody o ((fields.lookup "method").getD Json.null)
          (if pyTruthy ((fields.lookup "params").getD Json.null)
           then (fields.lookup "params").getD Json.null else Json.obj []) s with
       | (.ok result, s') =>
           .ok (okResponse ((fields.lookup "id").getD Json.null) result, s')
       | (.error msg, s') =>
           .ok (errResponse ((fields.lookup "id").getD Json.null) msg, s')) := by
  rfl

/-- On a JSON-object request every body outcome — success or exception —
becomes exactly one well-formed response. -/
theorem handle_request_obj_isOk (o : Oracles α) (fields : List (String × Json))
    (s : MLState α) :
    ∃ resp s', handle_request o (Json.obj fields) s = .ok (resp, s') ∧
      wellFormedResp resp = true := by
  rw [handle_request_obj]
  cases hb : handleBody o ((fields.lookup "method").getD Json.null)
      (if pyTruthy ((fields.lookup "params").getD Json.null)
       then (fields.lookup "params").getD Json.null else Json.obj []) s with
  | mk r s' =>
      cases r with
      | ok result =>
          exact ⟨okResponse ((fields.lookup "id").getD Json.null) result, s',
            rfl, wellFormedResp_ok _ _⟩
      | error msg =>
          exact ⟨errResponse ((fields.lookup "id").getD Json.null) msg, s',
            rfl, wellFormedResp_err _ _⟩

/-- Every non-blank line either fails to parse or parses to a JSON
object (the shape the protocol prescribes for requests). -/
def objOnly (parse : String → Except String Json) (lines : List String) : Prop :=
  ∀ line ∈ lines, pyStrip line = "" ∨
    (∃ msg, parse line = .error msg) ∨
    (∃ fields, parse line = .ok (Json.obj fields))

/-- Under `objOnly` the loop never crashes: it terminates normally with
exactly one well-formed response per non-blank line. -/
theorem mainLoop_objOnly {α : Type} (o : Oracles α)
    (parse : String → Except String Json) :
    ∀ (lines : List String) (s : MLState α), objOnly parse lines →
      ∃ rs s', mainLoop o parse lines s = .ok (rs, s') ∧
        rs.length = lines.countP (fun l => !(pyStrip l == "")) ∧
        ∀ r ∈ rs, wellFormedResp r = true
  | [], s, _ => ⟨[], s, rfl, rfl, by simp⟩
  | line :: rest, s, h => by
      have hrest : objOnly parse rest := fun l hl => h l (by simp [hl])
      by_cases hb : pyStrip line = ""
      · obtain ⟨rs, s', h1, h2, h3⟩ := mainLoop_objOnly o parse rest s hrest
        refine ⟨rs, s', ?_, ?_, h3⟩
        · simp only [mainLoop, if_pos hb]
          exact h1
        · rw [h2, List.countP_cons]
          simp [hb]
      · rcases h line (by simp) with hbl | ⟨msg, hm⟩ | ⟨fields, hf⟩
        · exact absurd hbl hb
        · obtain ⟨rs, s', h1, h2, h3⟩ := mainLoop_objOnly o parse rest s hrest
          refine ⟨errResponse Json.null ("Invalid JSON: " ++ msg) :: rs, s', ?_, ?_, ?_⟩
          · simp only [mainLoop, if_neg hb, hm, h1]
            rfl
          · simp [List.countP_cons, hb, h2]
          · intro r hr
            rcases List.mem_cons.mp hr with hr1 | hr2
            · rw [hr1]
              exact wellFormedResp_err _ _
            · exact h3 r hr2
        · obtain ⟨resp, s1, hh, hwf⟩ := handle_request_obj_isOk o fields s
          obtain ⟨rs, s', h1, h2, h3⟩ := mainLoop_objOnly o parse rest s1 hrest
          refine ⟨resp :: rs, s', ?_, ?_, ?_⟩
          · simp only [mainLoop, if_neg hb, hf, hh, h1]
            rfl
          · simp [List.countP_cons, hb, h2]
          · intro r hr
            rcases List.mem_cons.mp hr with hr1 | hr2
            · rw [hr1]
              exact hwf
            · exact h3 r hr2

/-- A JSON-parse oracle fixture: `{}` is an empty object, `42` and
`null` are valid non-object JSON, everything else is malformed. -/
def parseFixture : String → Except String Json := fun l =>
  if l = "\x7b\x7d" then .ok (Json.obj [])
  else if l = "42" then .ok (Json.num 42)
  else if l = "null" then .ok Json.null
  else .error "Expecting value: line 1 column 1 (char 0)"

/-! ### Claim C1 -/

/-- C1 counterexample: the line `42` parses as JSON (to the number 42),
but `request.get("id")` raises `AttributeError` before the `try` block in
`_handle_request`, the loop in `main` has no handler, and the daemon dies
instead of answering with an error response and exiting 0 at end of
input. -/
theorem nonobject_json_kills_daemon :
    parseFixture "42" = .ok (Json.num 42) ∧
    (rpc_main unitOracles parseFixture ["42"] initState).isOk = false :=
  ⟨rfl, rfl⟩

/-- C1 (amended): for every input line that parses as a JSON object, any
exception raised while handling the request — from the body, the
operations, or the model loaders — is caught at the dispatcher layer and
converted into an error response whose `error.message` is the exception
message; the loop then proceeds, and when every line is blank, malformed,
or a JSON object, the process terminates only at end of input with
status 0. -/
theorem request_exceptions_confined {α : Type} (o : Oracles α) :
    (∀ (fields : List (String × Json)) (s : MLState α),
      ∃ resp s', handle_request o (Json.obj fields) s = .ok (resp, s')) ∧
    (∀ (fields : List (String × Json)) (s : MLState α) msg s₂,
      handleBody o ((fields.lookup "method").getD Json.null)
        (if pyTruthy ((fields.lookup "params").getD Json.null)
         then (fields.lookup "params").getD Json.null else Json.obj []) s =
        (.error msg, s₂) →
      handle_request o (Json.obj fields) s =
        .ok (errResponse ((fields.lookup "id").getD Json.null) msg, s₂)) ∧
    (∀ (parse : String → Except String Json) (lines : List String)
        (s : MLState α), objOnly parse lines →
      ∃ rs s', rpc_main o parse lines s = .ok (rs, s', 0)) := by
  refine ⟨?_, ?_, ?_⟩
  · intro fields s
    obtain ⟨resp, s', hh, _⟩ := handle_request_obj_isOk o fields s
    exact ⟨resp, s', hh⟩
  · intro fields s msg s₂ hbody
    rw [handle_request_obj, hbody]
  · intro parse lines s h
    obtain ⟨rs, s', h1, _, _⟩ := mainLoop_objOnly o parse lines s h
    exact ⟨rs, s', by rw [rpc_main, h1]⟩

theorem request_exceptions_confined_witness :
    ∃ rs s', rpc_main unitOracles parseFixture ["\x7b\x7d", "", "bad"] initState =
      .ok (rs, s', 0) :=
  (request_exceptions_confined unitOracles).2.2 parseFixture
    ["\x7b\x7d", "", "bad"] initState
    (by
      intro line hl
      simp only [List.mem_cons, List.not_mem_nil, or_false] at hl
      rcases hl with h1 | h2 | h3
      · exact Or.inr (Or.inr ⟨[], by rw [h1]; rfl⟩)
      · exact Or.inl (by rw [h2]; rfl)
      · exact Or.inr (Or.inl
          ⟨"Expecting value: line 1 column 1 (char 0)", by rw [h3]; rfl⟩))

/-! ### Claim C2 -/

/-- C2 counterexample: `null` is a non-blank line and valid JSON, so the
claim demands exactly one response for it, but the daemon crashes with an
uncaught `AttributeError` and emits none. -/
theorem nonobject_json_no_response :
    (["null"].countP (fun l => !(pyStrip l == ""))) = 1 ∧
    parseFixture "null" = .ok Json.null ∧
    (mainLoop unitOracles parseFixture ["null"] initState).isOk = false :=
  ⟨rfl, rfl, rfl⟩

/-- C2 (amended): when every line is blank, malformed, or parses to a
JSON object, the dispatcher emits exactly one response per non-blank
line, in input order; every response carries exactly one of `result` and
`error`; a malformed line yields an `id: null` error response naming the
parse error and processing continues; a blank line yields no response. -/
theorem one_response_per_line {α : Type} (o : Oracles α)
    (parse : String → Except String Json) :
    (∀ (lines : List String) (s : MLState α), objOnly parse lines →
      ∃ rs s', mainLoop o parse lines s = .ok (rs, s') ∧
        rs.length = lines.countP (fun l => !(pyStrip l == "")) ∧
        ∀ r ∈ rs, wellFormedResp r = true) ∧
    (∀ (line : String) (rest : List String) (s : MLState α) msg,
      pyStrip line ≠ "" → parse line = .error msg →
      mainLoop o parse (line :: rest) s =
        (mainLoop o parse rest s).map
          (fun rs => (errResponse Json.null ("Invalid JSON: " ++ msg) :: rs.1,
            rs.2))) ∧
    (∀ (line : String) (rest : List String) (s : MLState α),
      pyStrip line = "" →
      mainLoop o parse (line :: rest) s = mainLoop o parse rest s) := by
  refine ⟨mainLoop_objOnly o parse, ?_, ?_⟩
  · intro line rest s msg hnb hm
    simp only [mainLoop, if_neg hnb, hm]
  · intro line rest s hb
    simp only [mainLoop, if_pos hb]

theorem one_response_per_line_witness :
    ∃ rs s', mainLoop unitOracles parseFixture ["\x7b\x7d", "bad", ""] initState =
      .ok (rs, s') ∧
      rs.length = (["\x7b\x7d", "bad", ""].countP (fun l => !(pyStrip l == ""))) ∧
      ∀ r ∈ rs, wellFormedResp r = true :=
  (one_response_per_line unitOracles parseFixture).1 ["\x7b\x7d", "bad", ""]
    initState
    (by
      intro line hl
      simp only [List.mem_cons, List.not_mem_nil, or_false] at hl
      rcases hl with h1 | h2 | h3
      · exact Or.inr (Or.inr ⟨[], by rw [h1]; rfl⟩)
      · exact Or.inr (Or.inl
          ⟨"Expecting value: line 1 column 1 (char 0)", by rw [h2]; rfl⟩)
      · exact Or.inl (by rw [h3]; rfl))


end AudioWhisper
